import Mathlib

/-!
Verification of the umami `send` route (`src/app/api/send/route.ts`).

The `POST` handler is embedded shallowly: every external collaborator
(request parsing, token codec, website/session stores, client-info
resolution, block list, clickhouse flag, environment toggles, the JS
`URL` constructor, `safeDecodeURI` from next-basics, and the `uuid`
hash from `lib/crypto`) is a field of a `World` record, and the handler
is a pure function from a `World` to a response together with the list
of external calls it performed, in order.  JS `undefined` is modelled
by `Option.none`; JS falsy tests on strings and numbers are modelled
explicitly (`""` and `0` are falsy).  An uncaught JS exception (the
`URL` constructor can throw) is modelled by a dedicated terminal
response value.
-/

/-- Result of `getClientInfo(request, payload)` (external resolver, spec 6). -/
structure ClientInfo where
  ip : String
  userAgent : String
  device : String
  browser : String
  os : String
  country : String
  subdivision1 : String
  subdivision2 : String
  city : String
deriving DecidableEq, Repr

/-- A JSON object payload (`data` field), modelled as an association list.
An empty object `\x7b\x7d` is the empty list: note that in JS an empty
object is truthy. -/
abbrev DataObj := List (String × String)

/-- The validated request payload (zod schema, route.ts lines 20-36).
Optional schema fields are `Option`; `none` is JS `undefined`. -/
structure Payload where
  website : String
  data : Option DataObj
  hostname : Option String
  language : Option String
  referrer : Option String
  screen : Option String
  title : Option String
  url : Option String
  name : Option String
  tag : Option String
  ip : Option String
  userAgent : Option String
deriving DecidableEq, Repr

/-- Modelled from the spec: `COLLECTION_TYPE` lives in `lib/constants`,
which is not part of the provided source; the zod enum restricts `type`
to the two beacon variants (spec 4.5 step 9: event vs identity). -/
inductive BeaconType where
  | event
  | identify
deriving DecidableEq, Repr

/-- The validated request body: `\x7b type, payload \x7d`. -/
structure Body where
  type : BeaconType
  payload : Payload
deriving DecidableEq, Repr

/-- A successfully decoded `x-umami-cache` token (route.ts line 60). -/
structure Cache where
  websiteId : String
  sessionId : String
  visitId : String
  iat : Int
deriving DecidableEq, Repr

/-- The parts of a WHATWG `URL` object the route reads (`pathname`,
`search` including its leading question mark when nonempty, `hostname`). -/
structure URLRec where
  pathname : String
  search : String
  hostname : String
deriving DecidableEq, Repr

/-- The record passed to `createSession` (route.ts lines 98-111). -/
structure SessionRec where
  id : String
  websiteId : String
  hostname : Option String
  browser : String
  os : String
  device : String
  screen : Option String
  language : Option String
  country : String
  subdivision1 : String
  subdivision2 : String
  city : String
deriving DecidableEq, Repr

/-- The record passed to `saveEvent` (route.ts lines 152-175). -/
structure EventRec where
  websiteId : String
  sessionId : String
  visitId : String
  urlPath : String
  urlQuery : Option String
  referrerPath : Option String
  referrerQuery : Option String
  referrerDomain : String
  pageTitle : Option String
  eventName : Option String
  eventData : Option DataObj
  hostname : Option String
  browser : String
  os : String
  device : String
  screen : Option String
  language : Option String
  country : String
  subdivision1 : String
  subdivision2 : String
  city : String
  tag : Option String
deriving DecidableEq, Repr

/-- The record passed to `saveSessionData` (route.ts lines 183-187). -/
structure SessionDataRec where
  websiteId : String
  sessionId : String
  sessionData : DataObj
deriving DecidableEq, Repr

/-- The claims embedded in the continuation token created at line 190. -/
structure TokenClaims where
  websiteId : String
  sessionId : String
  visitId : String
  iat : Int
deriving DecidableEq, Repr

/-- A thrown JS error as the route inspects it: only `message` is read. -/
structure JsError where
  message : String
deriving DecidableEq, Repr

/-- Terminal outcomes of the handler.  `thrown` models an uncaught JS
exception escaping `POST` (there is no try/catch around the `URL`
constructor at line 142). -/
inductive Response where
  | beep
  | schemaError
  | badRequest (msg : String)
  | forbidden
  | serverError (e : JsError)
  | cacheToken (t : TokenClaims)
  | thrown
deriving DecidableEq, Repr

/-- One call to an external collaborator, recorded in order. -/
inductive Effect where
  | fetchWebsite (websiteId : String)
  | getClientInfo
  | blockCheck (ip : String)
  | fetchSession (websiteId sessionId : String)
  | createSession (s : SessionRec)
  | saveEvent (e : EventRec)
  | saveSessionData (d : SessionDataRec)
  | createToken (t : TokenClaims)
deriving DecidableEq, Repr

/-- All external inputs of one request, fixed up front (each request is a
stateless execution, spec 5).  Function-valued fields are the external
collaborators of spec 6. -/
structure World where
  /-- truthiness of `process.env.DISABLE_BOT_CHECK` -/
  disableBotCheck : Bool
  /-- truthiness of `process.env.REMOVE_TRAILING_SLASH` -/
  removeTrailingSlash : Bool
  /-- `clickhouse.enabled` (storage-mode flag, spec 6) -/
  clickhouseEnabled : Bool
  /-- `isbot(request.headers.get(..))`; the header may be absent -/
  isbot : Option String → Bool
  userAgentHeader : Option String
  /-- the raw `x-umami-cache` header, absent when not sent -/
  cacheHeader : Option String
  /-- `parseToken(header, secret())`: decoded claims or null (spec 4.2) -/
  parseToken : String → Option Cache
  /-- `parseRequest(request, schema)`: a validation error or the typed body -/
  parseResult : Except Unit Body
  /-- `fetchWebsite(id)`: does the website exist -/
  fetchWebsite : String → Bool
  clientInfo : ClientInfo
  /-- `hasBlockedIp(ip)` -/
  hasBlockedIp : String → Bool
  /-- `fetchSession(websiteId, sessionId)`: does the session exist -/
  fetchSession : String → String → Bool
  /-- `createSession(rec)`: success or a thrown error with a message -/
  createSession : SessionRec → Except JsError Unit
  /-- `safeDecodeURI` from next-basics, lifted over an absent argument;
  per spec 4.4 it never throws (it falls back to the raw string) -/
  safeDecodeURI : Option String → Option String
  /-- the WHATWG `URL` constructor; `none` models a thrown TypeError -/
  parseURL : String → Option URLRec
  /-- `uuid(...parts)` from `lib/crypto`.  Modelled from the spec: a
  deterministic hash of its ordered components, missing components
  already replaced by empty strings (spec 4.1) -/
  uuid : List String → String
  /-- `visitSalt()` from `lib/crypto` (per-deployment salt, spec 4.1) -/
  visitSalt : String
  /-- `Math.floor(Date.now() / 1000)` at line 121 -/
  now : Int

/- ## JS string primitives used by the route -/

/-- `pat.isPrefixOf`-based substring test: JS `String.prototype.includes`. -/
def listIsInfix (pat : List Char) : List Char → Bool
  | [] => pat.isEmpty
  | c :: rest => pat.isPrefixOf (c :: rest) || listIsInfix pat rest

/-- JS `s.includes(pat)`. -/
def jsIncludes (s pat : String) : Bool := listIsInfix pat.data s.data

/-- JS `s.toLowerCase()`; character-wise ASCII lowering (the route only
compares against the ASCII text `unique constraint`, for which the
ASCII mapping agrees with the JS one). -/
def jsToLower (s : String) : String := String.mk (s.data.map Char.toLower)

/-- JS `s.split('?')`: split on every question mark, keeping empty
segments; the empty string yields one empty segment. -/
def splitQChars : List Char → List (List Char)
  | [] => [[]]
  | c :: rest =>
    if c == '?' then [] :: splitQChars rest
    else
      match splitQChars rest with
      | h :: t => (c :: h) :: t
      | [] => [[c]]

/-- JS `s.split('?')` on strings. -/
def jsSplitQ (s : String) : List String := (splitQChars s.data).map String.mk

/-- JS regex `\w` (ASCII word character). -/
def isWordChar (c : Char) : Bool :=
  (('a' ≤ c) && (c ≤ 'z')) || (('A' ≤ c) && (c ≤ 'Z')) || (('0' ≤ c) && (c ≤ '9')) || c == '_'

/-- JS regex test at line 141: `/^[\w-]+:\/\/\w+/.test(s)`.  The leading
class excludes the colon, so the greedy run is the maximal word-dash
prefix and no backtracking arises. -/
def absUrlTest (s : String) : Bool :=
  match s.data.span (fun c => isWordChar c || c == '-') with
  | ([], _) => false
  | (_ :: _, ':' :: '/' :: '/' :: c :: _) => isWordChar c
  | (_ :: _, _) => false

/-- Remove the first occurrence of `pat` from a character list (the
effect of JS `s.replace(pat-as-regex, '')` for a literal pattern). -/
def removeFirstSub (pat : List Char) : List Char → List Char
  | [] => []
  | c :: rest =>
    if pat.isPrefixOf (c :: rest) then List.drop (pat.length - 1) rest
    else c :: removeFirstSub pat rest

/-- Line 145: `hostname.replace(/www\./, '')` — the regex is the literal
string `www.` (the dot is escaped) and, without a global flag, `replace`
removes only the FIRST occurrence, wherever it is. -/
def jsRemoveFirstWww (h : String) : String :=
  String.mk (removeFirstSub ("www.").data h.data)

/-- JS line terminators, which regex `.` does not match. -/
def jsLineTerm (c : Char) : Bool :=
  c == '\n' || c == '\r' || c == Char.ofNat 0x2028 || c == Char.ofNat 0x2029

/-- Line 149: `urlPath.replace(/(.+)\/$/, '$1')`.  A match needs a
nonempty run of non-line-terminator characters directly before a final
slash; the replacement then deletes exactly that final slash.  Without
such a run (the root path, or a line terminator before the final slash,
or no final slash) the string is unchanged. -/
def jsStripTrailingSlash (s : String) : String :=
  match s.data.reverse with
  | '/' :: c :: rest => if jsLineTerm c then s else String.mk ((c :: rest).reverse)
  | _ => s

/- ## Spec-side string functions (for comparison with the code) -/

/-- Everything before the first question mark. -/
def beforeFirstQ (s : String) : String :=
  String.mk (s.data.takeWhile (fun c => c != '?'))

/-- The characters after the first question mark, absent when there is
none. -/
def afterFirstQ (cs : List Char) : Option (List Char) :=
  match cs.dropWhile (fun c => c != '?') with
  | [] => none
  | _ :: rest => some rest

/-- The segment strictly between the first and second question marks
(to the end when there is no second one); absent when there is no
question mark at all. -/
def betweenFirstSecondQ (s : String) : Option String :=
  (afterFirstQ s.data).map (fun l => String.mk (l.takeWhile (fun c => c != '?')))

/-- The spec's wording for the referrer domain: the hostname with a
LEADING `www.` stripped, and only a leading one. -/
def stripLeadingWwwSpec (h : String) : String :=
  if ("www.").data.isPrefixOf h.data then String.mk (h.data.drop 4) else h

/- ## The route handler, stage by stage -/

/-- JS truthiness of `cache?.websiteId` at line 72. -/
def cacheWebsiteTruthy : Option Cache → Bool
  | none => false
  | some c => c.websiteId != ""

/-- JS truthiness of `cache?.sessionId` at line 92. -/
def cacheSessionTruthy : Option Cache → Bool
  | none => false
  | some c => c.sessionId != ""

/-- Lines 60-69: decode the `x-umami-cache` header when present; a
failed decode leaves the cache null. -/
def cacheFromWorld (w : World) : Option Cache :=
  w.cacheHeader.bind w.parseToken

/-- Line 89: `sessionId = uuid(websiteId, hostname, ip, userAgent)`;
an absent hostname enters the hash as the empty string (spec 4.1). -/
def sessionIdOf (w : World) (body : Body) : String :=
  w.uuid [body.payload.website, Option.getD body.payload.hostname "",
    w.clientInfo.ip, w.clientInfo.userAgent]

/-- Lines 98-111: the record handed to `createSession`. -/
def mkSessionRec (w : World) (body : Body) (sessionId : String) : SessionRec :=
  { id := sessionId
    websiteId := body.payload.website
    hostname := body.payload.hostname
    browser := w.clientInfo.browser
    os := w.clientInfo.os
    device := w.clientInfo.device
    screen := body.payload.screen
    language := body.payload.language
    country := w.clientInfo.country
    subdivision1 := w.clientInfo.subdivision1
    subdivision2 := w.clientInfo.subdivision2
    city := w.clientInfo.city }

/-- Lines 121-129: visit resolution.  `cache?.visitId || uuid(..)` and
`cache?.iat || now` are JS falsy fallbacks: an empty cached visitId or
a zero cached iat falls back to the fresh value.  A visit older than
1800 seconds rolls over. -/
def resolveVisit (uuidF : List String → String) (salt : String) (sessionId : String)
    (cache : Option Cache) (now : Int) : String × Int :=
  let visitId0 : String :=
    match cache with
    | some c => if c.visitId != "" then c.visitId else uuidF [sessionId, salt]
    | none => uuidF [sessionId, salt]
  let iat0 : Int :=
    match cache with
    | some c => if c.iat != 0 then c.iat else now
    | none => now
  if now - iat0 > 1800 then (uuidF [sessionId, salt], now) else (visitId0, iat0)

/-- The split segments of a decoded optional string:
`safeDecodeURI(x)?.split('?') || []` (lines 133-134). -/
def urlSegs (sd : Option String → Option String) (x : Option String) : List String :=
  match sd x with
  | some d => jsSplitQ d
  | none => []

/-- Line 137-139: `urlPath` after the empty/undefined default. -/
def urlPathOf (sd : Option String → Option String) (url : Option String) : String :=
  match (urlSegs sd url)[0]? with
  | some s => if s == "" then "/" else s
  | none => "/"

/-- Line 141: the absolute-referrer regex test, applied to the first
split segment of the decoded referrer.  `test(undefined)` coerces to
the string literal text undefined, which has no scheme separator, so an
absent segment fails the test. -/
def refIsAbs (sd : Option String → Option String) (referrer : Option String) : Bool :=
  match (urlSegs sd referrer)[0]? with
  | some s => absUrlTest s
  | none => false

/-- Line 148-150: the optional trailing-slash policy. -/
def applySlashPolicy (rts : Bool) (p : String) : String :=
  if rts then jsStripTrailingSlash p else p

/-- The outcome of the URL/referrer normalization (lines 131-150).
Fields that the destructuring can leave undefined are `Option`. -/
structure Normalized where
  urlPath : String
  urlQuery : Option String
  referrerPath : Option String
  referrerQuery : Option String
  referrerDomain : String
deriving DecidableEq, Repr

/-- Lines 131-150: normalization of url and referrer.  When the decoded
referrer's first segment matches the absolute pattern, the ORIGINAL
referrer is handed to the `URL` constructor (line 142) with no
try/catch: a constructor failure is an uncaught exception, modelled by
`Except.error`. -/
def normalizeUrl (sd : Option String → Option String) (pu : String → Option URLRec)
    (rts : Bool) (url referrer : Option String) : Except Unit Normalized :=
  let uparts := urlSegs sd url
  let urlQuery := uparts[1]?
  let rparts := urlSegs sd referrer
  let referrerPath0 := rparts[0]?
  let referrerQuery0 := rparts[1]?
  if refIsAbs sd referrer then
    match referrer with
    | none => Except.error ()
    | some r =>
      match pu r with
      | none => Except.error ()
      | some u =>
        Except.ok
          { urlPath := applySlashPolicy rts (urlPathOf sd url)
            urlQuery := urlQuery
            referrerPath := some u.pathname
            referrerQuery := some (u.search.drop 1)
            referrerDomain := jsRemoveFirstWww u.hostname }
  else
    Except.ok
      { urlPath := applySlashPolicy rts (urlPathOf sd url)
        urlQuery := urlQuery
        referrerPath := referrerPath0
        referrerQuery := referrerQuery0
        referrerDomain := "" }

/-- Lines 121-192: everything after the session phase — visit
resolution, the event/identity branch, and the continuation token. -/
def visitPhase (w : World) (body : Body) (cache : Option Cache) (sessionId : String)
    (info : ClientInfo) (effs : List Effect) : Response × List Effect :=
  let websiteId := body.payload.website
  let vi := resolveVisit w.uuid w.visitSalt sessionId cache w.now
  match body.type with
  | BeaconType.event =>
    match normalizeUrl w.safeDecodeURI w.parseURL w.removeTrailingSlash
        body.payload.url body.payload.referrer with
    | Except.error _ => (Response.thrown, effs)
    | Except.ok n =>
      let ev : EventRec :=
        { websiteId := websiteId
          sessionId := sessionId
          visitId := vi.1
          urlPath := n.urlPath
          urlQuery := n.urlQuery
          referrerPath := n.referrerPath
          referrerQuery := n.referrerQuery
          referrerDomain := n.referrerDomain
          pageTitle := body.payload.title
          eventName := body.payload.name
          eventData := body.payload.data
          hostname := body.payload.hostname
          browser := info.browser
          os := info.os
          device := info.device
          screen := body.payload.screen
          language := body.payload.language
          country := info.country
          subdivision1 := info.subdivision1
          subdivision2 := info.subdivision2
          city := info.city
          tag := body.payload.tag }
      let tok : TokenClaims := ⟨websiteId, sessionId, vi.1, vi.2⟩
      (Response.cacheToken tok, effs ++ [Effect.saveEvent ev, Effect.createToken tok])
  | BeaconType.identify =>
    match body.payload.data with
    | none => (Response.badRequest ("Data required."), effs)
    | some d =>
      let tok : TokenClaims := ⟨websiteId, sessionId, vi.1, vi.2⟩
      (Response.cacheToken tok,
       effs ++ [Effect.saveSessionData ⟨websiteId, sessionId, d⟩, Effect.createToken tok])

/-- Lines 91-118: the session phase.  The lookup is skipped when the
cache carries a truthy sessionId; a missing session is created unless
the clickhouse storage mode is active; a creation failure whose
lowercased message contains the unique-constraint text is tolerated,
any other failure aborts with a server error. -/
def sessionPhase (w : World) (body : Body) (cache : Option Cache) (sessionId : String)
    (info : ClientInfo) (effs : List Effect) : Response × List Effect :=
  if cacheSessionTruthy cache then
    visitPhase w body cache sessionId info effs
  else
    let websiteId := body.payload.website
    let effs2 := effs ++ [Effect.fetchSession websiteId sessionId]
    if (!(w.fetchSession websiteId sessionId)) && (!w.clickhouseEnabled) then
      let srec := mkSessionRec w body sessionId
      let effs3 := effs2 ++ [Effect.createSession srec]
      match w.createSession srec with
      | Except.ok _ => visitPhase w body cache sessionId info effs3
      | Except.error e =>
        if !(jsIncludes (jsToLower e.message) ("unique constraint")) then
          (Response.serverError e, effs3)
        else
          visitPhase w body cache sessionId info effs3
    else
      visitPhase w body cache sessionId info effs2

/-- The external calls made up to and including the block-list check
on the non-short-circuit path. -/
def earlyEffects (w : World) (body : Body) : List Effect :=
  (if cacheWebsiteTruthy (cacheFromWorld w) then []
   else [Effect.fetchWebsite body.payload.website]) ++
  [Effect.getClientInfo, Effect.blockCheck w.clientInfo.ip]

/-- The external calls made on the path that reaches session creation. -/
def preEffects (w : World) (body : Body) : List Effect :=
  earlyEffects w body ++
  [Effect.fetchSession body.payload.website (sessionIdOf w body),
   Effect.createSession (mkSessionRec w body (sessionIdOf w body))]

/-- The `POST` handler of `src/app/api/send/route.ts`, lines 14-193. -/
def POST (w : World) : Response × List Effect :=
  if (!w.disableBotCheck) && w.isbot w.userAgentHeader then
    (Response.beep, [])
  else
    match w.parseResult with
    | Except.error _ => (Response.schemaError, [])
    | Except.ok body =>
      let cache := cacheFromWorld w
      let websiteId := body.payload.website
      let effs0 : List Effect :=
        if cacheWebsiteTruthy cache then [] else [Effect.fetchWebsite websiteId]
      if (!(cacheWebsiteTruthy cache)) && (!(w.fetchWebsite websiteId)) then
        (Response.badRequest ("Website not found."), effs0)
      else
        let info := w.clientInfo
        let effs1 := effs0 ++ [Effect.getClientInfo, Effect.blockCheck info.ip]
        if w.hasBlockedIp info.ip then
          (Response.forbidden, effs1)
        else
          sessionPhase w body cache (sessionIdOf w body) info effs1

/- ## Effect classifiers -/

/-- A store write: session creation, event persistence, or identity
persistence. -/
def isStoreWrite : Effect → Bool
  | Effect.createSession _ => true
  | Effect.saveEvent _ => true
  | Effect.saveSessionData _ => true
  | _ => false

/-- An event or identity record write (session creation excluded). -/
def isPersistEffect : Effect → Bool
  | Effect.saveEvent _ => true
  | Effect.saveSessionData _ => true
  | _ => false

/-- Does an effect use exactly the given website and session ids in its
persisted or token-embedded identity fields (trivially true for effects
that carry no such fields)? -/
def usesIds (webId sid : String) : Effect → Bool
  | Effect.saveEvent ev => ev.websiteId == webId && ev.sessionId == sid
  | Effect.saveSessionData d => d.websiteId == webId && d.sessionId == sid
  | Effect.createToken t => t.websiteId == webId && t.sessionId == sid
  | _ => true

/- ## Path lemmas -/

theorem post_reaches_sessionPhase (w : World) (body : Body)
    (hbot : ((!w.disableBotCheck) && w.isbot w.userAgentHeader) = false)
    (hparse : w.parseResult = Except.ok body)
    (hweb : ((!(cacheWebsiteTruthy (cacheFromWorld w))) && (!(w.fetchWebsite body.payload.website))) = false)
    (hblock : w.hasBlockedIp w.clientInfo.ip = false) :
    POST w = sessionPhase w body (cacheFromWorld w) (sessionIdOf w body)
      w.clientInfo (earlyEffects w body) := by
  unfold POST earlyEffects
  rw [hparse]
  simp [hbot, hweb, hblock]

/-- C7: a request classified as a bot while bot checking is enabled gets
the neutral response and the handler makes zero external calls: no
client-info resolution, block-list check, website, session, event or
identity store access. -/
theorem claim7_botShortCircuit (w : World)
    (hcfg : w.disableBotCheck = false)
    (hbot : w.isbot w.userAgentHeader = true) :
    POST w = (Response.beep, []) := by
  unfold POST
  simp [hcfg, hbot]

theorem claim7_witness :
    POST { disableBotCheck := false, removeTrailingSlash := false,
           clickhouseEnabled := false, isbot := fun _ => true,
           userAgentHeader := some ("curl/8"), cacheHeader := none,
           parseToken := fun _ => none, parseResult := Except.error (),
           fetchWebsite := fun _ => true,
           clientInfo := ⟨"1.2.3.4", "curl/8", "", "", "", "", "", "", ""⟩,
           hasBlockedIp := fun _ => false, fetchSession := fun _ _ => true,
           createSession := fun _ => Except.ok (),
           safeDecodeURI := fun o => o, parseURL := fun _ => none,
           uuid := fun ps => String.intercalate ("|") ps,
           visitSalt := "salt", now := 1000 } = (Response.beep, []) :=
  claim7_botShortCircuit _ (by decide) (by decide)

/-- C8: a request whose resolved IP is blocked terminates with the
forbidden response right after the block-list check; the calls made up
to that point contain no store write (no session creation, no event and
no identity persistence). -/
theorem claim8_blockedIp (w : World) (body : Body)
    (hbot : ((!w.disableBotCheck) && w.isbot w.userAgentHeader) = false)
    (hparse : w.parseResult = Except.ok body)
    (hweb : ((!(cacheWebsiteTruthy (cacheFromWorld w))) && (!(w.fetchWebsite body.payload.website))) = false)
    (hblock : w.hasBlockedIp w.clientInfo.ip = true) :
    POST w = (Response.forbidden, earlyEffects w body) ∧
    (earlyEffects w body).all (fun x => !(isStoreWrite x)) = true := by
  constructor
  · unfold POST earlyEffects
    rw [hparse]
    simp [hbot, hweb, hblock]
  · unfold earlyEffects
    cases hcw : cacheWebsiteTruthy (cacheFromWorld w) <;> simp [isStoreWrite]

/- ## Concrete fixtures for witnesses and counterexamples -/

def uuidTest : List String → String := fun ps => String.intercalate ("|") ps

def cInfo0 : ClientInfo := ⟨"9.9.9.9", "UA", "desktop", "chrome", "mac", "US", "", "", ""⟩

def payload0 : Payload :=
  { website := "w1", data := none, hostname := some ("h"), language := none,
    referrer := none, screen := none, title := none, url := some ("/p"),
    name := none, tag := none, ip := none, userAgent := none }

def body0 : Body := ⟨BeaconType.event, payload0⟩

def baseWorld : World :=
  { disableBotCheck := false, removeTrailingSlash := false,
    clickhouseEnabled := false, isbot := fun _ => false,
    userAgentHeader := some ("UA"), cacheHeader := none,
    parseToken := fun _ => none, parseResult := Except.ok body0,
    fetchWebsite := fun _ => true, clientInfo := cInfo0,
    hasBlockedIp := fun _ => false, fetchSession := fun _ _ => true,
    createSession := fun _ => Except.ok (),
    safeDecodeURI := fun o => o, parseURL := fun _ => none,
    uuid := uuidTest, visitSalt := "salt", now := 1000 }

def world8 : World := { baseWorld with hasBlockedIp := fun _ => true }

theorem claim8_witness :
    POST world8 = (Response.forbidden, earlyEffects world8 body0) ∧
    (earlyEffects world8 body0).all (fun x => !(isStoreWrite x)) = true :=
  claim8_blockedIp world8 body0 (by decide) rfl (by decide) (by decide)

/-- C1: when a request reaches session creation and `createSession`
fails, a failure whose lowercased message contains the
unique-constraint text is treated as success — execution continues into
the visit-resolution-and-persistence stage (`visitPhase`); any other
failure terminates the request with a server-error response carrying
the error, and the calls made up to that point contain no event or
identity write. -/
theorem claim1_sessionCreateFailure (w : World) (body : Body) (e : JsError)
    (hbot : ((!w.disableBotCheck) && w.isbot w.userAgentHeader) = false)
    (hparse : w.parseResult = Except.ok body)
    (hweb : ((!(cacheWebsiteTruthy (cacheFromWorld w))) && (!(w.fetchWebsite body.payload.website))) = false)
    (hblock : w.hasBlockedIp w.clientInfo.ip = false)
    (hsesc : cacheSessionTruthy (cacheFromWorld w) = false)
    (hfound : w.fetchSession body.payload.website (sessionIdOf w body) = false)
    (hch : w.clickhouseEnabled = false)
    (herr : w.createSession (mkSessionRec w body (sessionIdOf w body)) = Except.error e) :
    (jsIncludes (jsToLower e.message) ("unique constraint") = true →
      POST w = visitPhase w body (cacheFromWorld w) (sessionIdOf w body)
        w.clientInfo (preEffects w body)) ∧
    (jsIncludes (jsToLower e.message) ("unique constraint") = false →
      POST w = (Response.serverError e, preEffects w body) ∧
      (preEffects w body).all (fun x => !(isPersistEffect x)) = true) := by
  have hp := post_reaches_sessionPhase w body hbot hparse hweb hblock
  rw [hp]
  unfold sessionPhase
  rw [hsesc]
  simp only [Bool.false_eq_true, if_false, hfound, hch, Bool.not_false, Bool.and_self, if_true]
  rw [herr]
  constructor
  · intro h
    simp [h, preEffects]
  · intro h
    refine ⟨by simp [h, preEffects], ?_⟩
    unfold preEffects earlyEffects
    cases hcw : cacheWebsiteTruthy (cacheFromWorld w) <;> simp [isPersistEffect]

def errUnique : JsError := ⟨"Unique constraint failed on the fields: (`id`)"⟩

def world1 : World :=
  { baseWorld with fetchSession := fun _ _ => false,
                   createSession := fun _ => Except.error errUnique }

theorem claim1_witness :
    jsIncludes (jsToLower (errUnique.message)) ("unique constraint") = true ∧
    POST world1 = visitPhase world1 body0 (cacheFromWorld world1)
      (sessionIdOf world1 body0) world1.clientInfo (preEffects world1 body0) :=
  ⟨by decide,
   (claim1_sessionCreateFailure world1 body0 errUnique (by decide) rfl (by decide)
      (by decide) (by decide) (by decide) (by decide) rfl).1 (by decide)⟩

/-- C2 counterexample: the code's `cache?.iat || now` and
`cache?.visitId || uuid(..)` (lines 122-123) treat a zero issuedAt and
an empty visitId as absent.  A decoded cache with issuedAt T = 0 at
now = 1000 (so now - T = 1000 <= 1800) does NOT reuse issuedAt
unchanged: the code re-stamps issuedAt to now.  Likewise a cached empty
visitId within the window is replaced by a fresh one instead of being
reused. -/
theorem claim2_counterexample :
    ((1000 : Int) - 0 ≤ 1800 ∧
      resolveVisit uuidTest ("salt") ("sid") (some ⟨"w", "s", "v", 0⟩) 1000 = ("v", 1000) ∧
      ("v", (1000 : Int)) ≠ ("v", (0 : Int))) ∧
    ((1000 : Int) - 50 ≤ 1800 ∧
      resolveVisit uuidTest ("salt") ("sid") (some ⟨"w", "s", "", 50⟩) 1000 = ("sid|salt", 50) ∧
      ("sid|salt", (50 : Int)) ≠ ("", (50 : Int))) := by
  decide

/-- C2 (amended): provided the cached visitId is nonempty and the
cached issuedAt is nonzero (JS-falsy cached fields fall back to fresh
values), a request within the 1800-second window reuses the cached
visitId and issuedAt unchanged, and a request past the window gets a
fresh `uuid(sessionId, salt)` visitId stamped at the current time. -/
theorem claim2_visitRollover (f : List String → String) (salt sid a b v : String) (T now : Int)
    (hv : v ≠ "") (hT : T ≠ 0) :
    (now - T ≤ 1800 →
      resolveVisit f salt sid (some ⟨a, b, v, T⟩) now = (v, T)) ∧
    (now - T > 1800 →
      resolveVisit f salt sid (some ⟨a, b, v, T⟩) now = (f [sid, salt], now)) := by
  have hv' : (v != "") = true := bne_iff_ne.mpr hv
  have hT' : (T != 0) = true := bne_iff_ne.mpr hT
  constructor
  · intro h
    unfold resolveVisit
    simp only [hv', hT', if_true]
    rw [if_neg (by omega)]
  · intro h
    unfold resolveVisit
    simp only [hv', hT', if_true]
    rw [if_pos (by omega)]

theorem claim2_witness :
    (resolveVisit uuidTest ("salt") ("sid") (some ⟨"w", "s", "v", 100⟩) 1899 = ("v", 100)) ∧
    (resolveVisit uuidTest ("salt") ("sid") (some ⟨"w", "s", "v", 100⟩) 1901 =
      (uuidTest [("sid"), ("salt")], 1901)) :=
  ⟨(claim2_visitRollover uuidTest ("salt") ("sid") ("w") ("s") ("v") 100 1899
      (by decide) (by decide)).1 (by decide),
   (claim2_visitRollover uuidTest ("salt") ("sid") ("w") ("s") ("v") 100 1901
      (by decide) (by decide)).2 (by decide)⟩

/- ## Lemmas about the question-mark split -/

theorem splitQChars_ne_nil (cs : List Char) : splitQChars cs ≠ [] := by
  induction cs with
  | nil => simp [splitQChars]
  | cons c rest ih =>
    unfold splitQChars
    split
    · simp
    · split <;> simp

theorem splitQChars_get0 (cs : List Char) :
    (splitQChars cs)[0]? = some (cs.takeWhile (fun c => c != '?')) := by
  induction cs with
  | nil => simp [splitQChars]
  | cons c rest ih =>
    unfold splitQChars
    by_cases h : c == '?'
    · have hp : (c != '?') = false := by simp [bne, h]
      simp [h, List.takeWhile_cons, hp]
    · have hp : (c != '?') = true := by simp [bne, h]
      obtain ⟨hd, tl, hr⟩ := List.exists_cons_of_ne_nil (splitQChars_ne_nil rest)
      rw [hr] at ih
      simp only [List.getElem?_cons_zero, Option.some.injEq] at ih
      simp [h, hr, List.takeWhile_cons, hp, ih]

theorem afterFirstQ_cons (c : Char) (rest : List Char) :
    afterFirstQ (c :: rest) = if c == '?' then some rest else afterFirstQ rest := by
  by_cases h : c == '?'
  · have hp : (c != '?') = false := by simp [bne, h]
    unfold afterFirstQ
    simp [List.dropWhile_cons, hp, h]
  · have hp : (c != '?') = true := by simp [bne, h]
    unfold afterFirstQ
    simp [List.dropWhile_cons, hp, h]

theorem splitQChars_get1 (cs : List Char) :
    (splitQChars cs)[1]? =
      (afterFirstQ cs).map (fun l => l.takeWhile (fun c => c != '?')) := by
  induction cs with
  | nil => simp [splitQChars, afterFirstQ]
  | cons c rest ih =>
    unfold splitQChars
    rw [afterFirstQ_cons]
    by_cases h : c == '?'
    · simp [h, splitQChars_get0]
    · obtain ⟨hd, tl, hr⟩ := List.exists_cons_of_ne_nil (splitQChars_ne_nil rest)
      rw [hr] at ih
      simp [h, hr]
      simpa using ih

theorem jsSplitQ_get0 (s : String) : (jsSplitQ s)[0]? = some (beforeFirstQ s) := by
  unfold jsSplitQ beforeFirstQ
  rw [List.getElem?_map, splitQChars_get0]
  rfl

theorem jsSplitQ_get1 (s : String) : (jsSplitQ s)[1]? = betweenFirstSecondQ s := by
  unfold jsSplitQ betweenFirstSecondQ
  rw [List.getElem?_map, splitQChars_get1]
  cases afterFirstQ s.data <;> rfl

theorem urlSegs_some (sd : Option String → Option String) (x : Option String) (d : String)
    (hd : sd x = some d) : urlSegs sd x = jsSplitQ d := by
  unfold urlSegs
  rw [hd]

theorem urlPathOf_of_decoded (sd : Option String → Option String) (url : Option String)
    (d : String) (hd : sd url = some d) :
    urlPathOf sd url = (if beforeFirstQ d == "" then "/" else beforeFirstQ d) := by
  unfold urlPathOf
  rw [urlSegs_some sd url d hd, jsSplitQ_get0]

instance {a b : Type} [DecidableEq a] [DecidableEq b] : DecidableEq (Except a b) :=
  fun x y =>
    match x, y with
    | Except.error u, Except.error v =>
      if h : u = v then Decidable.isTrue (by rw [h])
      else Decidable.isFalse (fun hc => h (Except.error.inj hc))
    | Except.ok u, Except.ok v =>
      if h : u = v then Decidable.isTrue (by rw [h])
      else Decidable.isFalse (fun hc => h (Except.ok.inj hc))
    | Except.error _, Except.ok _ => Decidable.isFalse (fun hc => Except.noConfusion hc)
    | Except.ok _, Except.error _ => Decidable.isFalse (fun hc => Except.noConfusion hc)

/-- C5 counterexample: JS `split('?')` splits on EVERY question mark
and the destructuring keeps only element 1, so for url `/a?x=1?y=2`
the code yields urlQuery `x=1`, not `x=1?y=2` as the claim asserts
(text after the second question mark is dropped). -/
theorem claim5_counterexample :
    normalizeUrl (fun o => o) (fun _ => none) false (some ("/a?x=1?y=2")) none =
      Except.ok { urlPath := "/a", urlQuery := some ("x=1"), referrerPath := none,
                  referrerQuery := none, referrerDomain := "" } ∧
    some ("x=1") ≠ some ("x=1?y=2") := by
  decide

/-- C5 (amended): for every url whose decode yields `d`, the normalizer
(with the trailing-slash policy off) sets urlPath to everything before
the first question mark of `d`, defaulting to the root path when that
part is empty, and sets urlQuery to the segment strictly between the
first and the second question mark (absent when `d` has no question
mark; anything after a second question mark is dropped). -/
theorem claim5_urlSplit (sd : Option String → Option String) (pu : String → Option URLRec)
    (url referrer : Option String) (d : String) (out : Normalized)
    (hd : sd url = some d)
    (hok : normalizeUrl sd pu false url referrer = Except.ok out) :
    out.urlPath = (if beforeFirstQ d == "" then "/" else beforeFirstQ d) ∧
    out.urlQuery = betweenFirstSecondQ d := by
  have hpath := urlPathOf_of_decoded sd url d hd
  have h1 : (urlSegs sd url)[1]? = betweenFirstSecondQ d := by
    rw [urlSegs_some sd url d hd, jsSplitQ_get1]
  unfold normalizeUrl at hok
  by_cases habs : refIsAbs sd referrer = true
  · rw [if_pos habs] at hok
    split at hok
    · simp at hok
    · split at hok
      · simp at hok
      · have heq := Except.ok.inj hok
        rw [← heq]
        exact ⟨by simp [applySlashPolicy, hpath], by simp [h1]⟩
  · rw [if_neg habs] at hok
    have heq := Except.ok.inj hok
    rw [← heq]
    exact ⟨by simp [applySlashPolicy, hpath], by simp [h1]⟩

theorem claim5_witness :
    (normalizeUrl (fun o => o) (fun _ => none) false (some ("/foo/bar?x=1")) none =
      Except.ok { urlPath := "/foo/bar", urlQuery := some ("x=1"), referrerPath := none,
                  referrerQuery := none, referrerDomain := "" }) ∧
    ((if beforeFirstQ ("/foo/bar?x=1") == "" then "/" else beforeFirstQ ("/foo/bar?x=1")) = "/foo/bar" ∧
      betweenFirstSecondQ ("/foo/bar?x=1") = some ("x=1")) ∧
    ("/foo/bar" = (if beforeFirstQ ("/foo/bar?x=1") == "" then "/" else beforeFirstQ ("/foo/bar?x=1")) ∧
      some ("x=1") = betweenFirstSecondQ ("/foo/bar?x=1")) :=
  ⟨by decide, by decide,
   claim5_urlSplit (fun o => o) (fun _ => none) (some ("/foo/bar?x=1")) none ("/foo/bar?x=1")
     { urlPath := "/foo/bar", urlQuery := some ("x=1"), referrerPath := none,
       referrerQuery := none, referrerDomain := "" } rfl (by decide)⟩

/- ## Evaluation lemmas for the normalizer -/

theorem normalizeUrl_abs (sd : Option String → Option String) (pu : String → Option URLRec)
    (rts : Bool) (url : Option String) (r : String) (u : URLRec)
    (habs : refIsAbs sd (some r) = true) (hpu : pu r = some u) :
    normalizeUrl sd pu rts url (some r) =
      Except.ok { urlPath := applySlashPolicy rts (urlPathOf sd url)
                  urlQuery := (urlSegs sd url)[1]?
                  referrerPath := some u.pathname
                  referrerQuery := some (u.search.drop 1)
                  referrerDomain := jsRemoveFirstWww u.hostname } := by
  unfold normalizeUrl
  rw [if_pos habs]
  simp [hpu]

theorem normalizeUrl_abs_noparse (sd : Option String → Option String)
    (pu : String → Option URLRec) (rts : Bool) (url : Option String) (r : String)
    (habs : refIsAbs sd (some r) = true) (hpu : pu r = none) :
    normalizeUrl sd pu rts url (some r) = Except.error () := by
  unfold normalizeUrl
  rw [if_pos habs]
  simp [hpu]

theorem normalizeUrl_abs_noref (sd : Option String → Option String)
    (pu : String → Option URLRec) (rts : Bool) (url : Option String)
    (habs : refIsAbs sd none = true) :
    normalizeUrl sd pu rts url none = Except.error () := by
  unfold normalizeUrl
  rw [if_pos habs]

theorem normalizeUrl_bare (sd : Option String → Option String) (pu : String → Option URLRec)
    (rts : Bool) (url referrer : Option String)
    (habs : refIsAbs sd referrer = false) :
    normalizeUrl sd pu rts url referrer =
      Except.ok { urlPath := applySlashPolicy rts (urlPathOf sd url)
                  urlQuery := (urlSegs sd url)[1]?
                  referrerPath := (urlSegs sd referrer)[0]?
                  referrerQuery := (urlSegs sd referrer)[1]?
                  referrerDomain := "" } := by
  unfold normalizeUrl
  rw [if_neg (by simp [habs])]

theorem refIsAbs_of_sd_none (sd : Option String → Option String)
    (hnone : sd none = none) : refIsAbs sd none = false := by
  unfold refIsAbs urlSegs
  rw [hnone]
  rfl

theorem urlPathOf_ne_empty (sd : Option String → Option String) (url : Option String) :
    urlPathOf sd url ≠ "" := by
  unfold urlPathOf
  split
  · rename_i s heq
    split
    · simp
    · rename_i hs
      intro hc
      exact hs (by simp [hc])
  · simp

theorem jsStripTrailingSlash_ne_empty (s : String) (h : s ≠ "") :
    jsStripTrailingSlash s ≠ "" := by
  unfold jsStripTrailingSlash
  split
  · rename_i c rest heq
    by_cases hlt : jsLineTerm c
    · simpa [hlt] using h
    · simp only [hlt, if_false]
      intro hc
      have hd := congrArg String.data hc
      simp at hd
  · exact h

theorem applySlashPolicy_ne_empty (rts : Bool) (p : String) (hp : p ≠ "") :
    applySlashPolicy rts p ≠ "" := by
  cases rts with
  | false => simpa [applySlashPolicy] using hp
  | true => simpa [applySlashPolicy] using jsStripTrailingSlash_ne_empty p hp

/-- C3 counterexample, two parts.  (1) For url `/foo` (no question
mark) the destructuring leaves urlQuery undefined (`none`), not the
empty string the claim promises.  (2) For referrer `http://a b`, whose
decoded first segment matches the absolute pattern, the original
referrer is handed to the `URL` constructor, which throws — a space is
a forbidden host code point — so the normalization step raises an
uncaught exception; the constructor failure is modelled by a parser
returning `none` on that input. -/
theorem claim3_counterexample :
    (normalizeUrl (fun o => o) (fun _ => none) false (some ("/foo")) none =
      Except.ok { urlPath := "/foo", urlQuery := none, referrerPath := none,
                  referrerQuery := none, referrerDomain := "" }) ∧
    normalizeUrl (fun o => o) (fun _ => none) false (some ("/foo")) (some ("http://a b")) =
      Except.error () := by
  decide

/-- C3 (amended): provided decoding an absent referrer yields an absent
result and the `URL` constructor succeeds on every present referrer
whose decoded first segment matches the absolute pattern, the
normalization raises no exception; urlPath is then always a nonempty
string (worst case the root path) and referrerDomain always a string
(worst case empty), while urlQuery, referrerPath and referrerQuery may
be undefined (absent) rather than empty strings. -/
theorem claim3_normalizeTotal (sd : Option String → Option String)
    (pu : String → Option URLRec) (rts : Bool) (url referrer : Option String)
    (hnone : sd none = none)
    (hpu : ∀ r, referrer = some r → refIsAbs sd (some r) = true → (pu r).isSome = true) :
    ∃ out, normalizeUrl sd pu rts url referrer = Except.ok out ∧ out.urlPath ≠ "" := by
  by_cases habs : refIsAbs sd referrer = true
  · cases referrer with
    | none => rw [refIsAbs_of_sd_none sd hnone] at habs; exact absurd habs (by simp)
    | some r =>
      have hs := hpu r rfl habs
      cases hpur : pu r with
      | none => rw [hpur] at hs; simp at hs
      | some u =>
        exact ⟨_, normalizeUrl_abs sd pu rts url r u habs hpur,
          applySlashPolicy_ne_empty rts _ (urlPathOf_ne_empty sd url)⟩
  · have habs' : refIsAbs sd referrer = false := by
      cases h : refIsAbs sd referrer
      · rfl
      · exact absurd h habs
    exact ⟨_, normalizeUrl_bare sd pu rts url referrer habs',
      applySlashPolicy_ne_empty rts _ (urlPathOf_ne_empty sd url)⟩

theorem claim3_witness :
    ∃ out, normalizeUrl (fun o => o) (fun _ => some ⟨"/p", "", "x.org"⟩) false
      (some ("/foo")) (some ("https://x.org/p")) = Except.ok out ∧ out.urlPath ≠ "" :=
  claim3_normalizeTotal (fun o => o) (fun _ => some ⟨"/p", "", "x.org"⟩) false
    (some ("/foo")) (some ("https://x.org/p")) rfl (fun _ _ _ => rfl)

/-- C4 counterexample: line 145 uses `replace(/www\./, '')`, which
removes the FIRST occurrence of `www.` anywhere in the hostname, not
only a leading one.  For a referrer with hostname
`blog.www.example.com` the code produces `blog.example.com`, while the
claim demands the hostname be left intact (its `www.` is not leading).
The parser value used is the real `URL` result for this referrer. -/
theorem claim4_counterexample :
    (normalizeUrl (fun o => o) (fun _ => some ⟨"/", "", "blog.www.example.com"⟩) false
      none (some ("https://blog.www.example.com/")) =
      Except.ok { urlPath := "/", urlQuery := none, referrerPath := some ("/"),
                  referrerQuery := some (""), referrerDomain := "blog.example.com" }) ∧
    stripLeadingWwwSpec ("blog.www.example.com") = "blog.www.example.com" ∧
    ("blog.example.com" : String) ≠ "blog.www.example.com" := by
  decide

/-- C4 (amended): for a referrer whose decoded first segment matches
the absolute-URL pattern and which the `URL` constructor accepts,
referrerDomain is the hostname with the FIRST occurrence of `www.`
removed, wherever that occurrence sits (a leading `www.` is stripped,
but `blog.www.example.com` loses its inner `www.` and `awww.example.com`
becomes `aexample.com`); for a referrer failing the pattern (bare
path), referrerDomain is the empty string. -/
theorem claim4_referrerDomain (sd : Option String → Option String)
    (pu : String → Option URLRec) (rts : Bool) (url : Option String)
    (r : String) (u : URLRec) (out : Normalized)
    (habs : refIsAbs sd (some r) = true)
    (hpu : pu r = some u)
    (hok : normalizeUrl sd pu rts url (some r) = Except.ok out) :
    out.referrerDomain = jsRemoveFirstWww u.hostname ∧
    (∀ referrer out2, refIsAbs sd referrer = false →
      normalizeUrl sd pu rts url referrer = Except.ok out2 → out2.referrerDomain = "") ∧
    jsRemoveFirstWww ("www.example.com") = "example.com" ∧
    jsRemoveFirstWww ("blog.www.example.com") = "blog.example.com" ∧
    jsRemoveFirstWww ("awww.example.com") = "aexample.com" := by
  refine ⟨?_, ?_, by decide, by decide, by decide⟩
  · rw [normalizeUrl_abs sd pu rts url r u habs hpu] at hok
    rw [← Except.ok.inj hok]
  · intro referrer out2 hbare hok2
    rw [normalizeUrl_bare sd pu rts url referrer hbare] at hok2
    rw [← Except.ok.inj hok2]

def u4 : URLRec := ⟨"/page", "?ref=a", "www.example.com"⟩

def pu4 : String → Option URLRec := fun _ => some u4

def out4 : Normalized :=
  { urlPath := "/", urlQuery := none, referrerPath := some ("/page"),
    referrerQuery := some ("ref=a"), referrerDomain := "example.com" }

theorem claim4_witness :
    (normalizeUrl (fun o => o) pu4 false none
      (some ("https://www.example.com/page?ref=a")) = Except.ok out4) ∧
    out4.referrerDomain = jsRemoveFirstWww (u4.hostname) :=
  ⟨by decide,
   (claim4_referrerDomain (fun o => o) pu4 false none
      ("https://www.example.com/page?ref=a") u4 out4 (by decide) rfl (by decide)).1⟩

/-- C9 counterexample: the regex `(.+)\/$` requires a non-line-terminator
character directly before the final slash (`.` does not match a
newline), so with the policy enabled the path that is the text x,
newline, slash — which ends in a slash and is longer than the root —
is NOT stripped: the normalizer leaves it unchanged. -/
theorem claim9_counterexample :
    (normalizeUrl (fun o => o) (fun _ => none) true (some ("x\n/")) none =
      Except.ok { urlPath := "x\n/", urlQuery := none, referrerPath := none,
                  referrerQuery := none, referrerDomain := "" }) ∧
    ("x\n/").data.getLast? = some ('/') ∧
    2 ≤ ("x\n/").data.length ∧
    ("x\n/" : String) ≠ "x\n" := by
  decide

/-- C9 (amended): with the remove-trailing-slash policy enabled, a path
whose final character is a slash preceded by a non-line-terminator
character loses exactly that final slash; a path whose final slash is
preceded by a line terminator is left unchanged; the root path is never
reduced; and the policy-enabled normalizer differs from the disabled
one exactly by applying this strip to urlPath (with the policy
disabled, urlPath is unchanged). -/
theorem claim9_trailingSlash :
    (∀ (s : String) (c : Char) (rest : List Char),
      s.data.reverse = '/' :: c :: rest → jsLineTerm c = false →
      jsStripTrailingSlash s = String.mk ((c :: rest).reverse)) ∧
    (∀ (s : String) (c : Char) (rest : List Char),
      s.data.reverse = '/' :: c :: rest → jsLineTerm c = true →
      jsStripTrailingSlash s = s) ∧
    jsStripTrailingSlash ("/") = "/" ∧
    (∀ (sd : Option String → Option String) (pu : String → Option URLRec)
      (url referrer : Option String) (out : Normalized),
      normalizeUrl sd pu false url referrer = Except.ok out →
      normalizeUrl sd pu true url referrer =
        Except.ok { out with urlPath := jsStripTrailingSlash out.urlPath }) := by
  refine ⟨?_, ?_, by decide, ?_⟩
  · intro s c rest hrev hlt
    unfold jsStripTrailingSlash
    rw [hrev]
    simp [hlt]
  · intro s c rest hrev hlt
    unfold jsStripTrailingSlash
    rw [hrev]
    simp [hlt]
  · intro sd pu url referrer out hok
    by_cases habs : refIsAbs sd referrer = true
    · cases referrer with
      | none =>
        rw [normalizeUrl_abs_noref sd pu false url habs] at hok
        simp at hok
      | some r =>
        cases hpu : pu r with
        | none =>
          rw [normalizeUrl_abs_noparse sd pu false url r habs hpu] at hok
          simp at hok
        | some u =>
          rw [normalizeUrl_abs sd pu false url r u habs hpu] at hok
          rw [normalizeUrl_abs sd pu true url r u habs hpu, ← Except.ok.inj hok]
          simp [applySlashPolicy]
    · have habs' : refIsAbs sd referrer = false := by
        cases h : refIsAbs sd referrer
        · rfl
        · exact absurd h habs
      rw [normalizeUrl_bare sd pu false url referrer habs'] at hok
      rw [normalizeUrl_bare sd pu true url referrer habs', ← Except.ok.inj hok]
      simp [applySlashPolicy]

theorem claim9_witness :
    jsStripTrailingSlash ("/a/") = String.mk ((('a') :: ['/']).reverse) :=
  claim9_trailingSlash.1 ("/a/") ('a') (['/']) (by decide) (by decide)

/-- The continuation-token claims issued at line 190 for a given
session phase outcome. -/
def tokenOf (w : World) (body : Body) (cache : Option Cache) (sessionId : String) : TokenClaims :=
  ⟨body.payload.website, sessionId,
   (resolveVisit w.uuid w.visitSalt sessionId cache w.now).1,
   (resolveVisit w.uuid w.visitSalt sessionId cache w.now).2⟩

def body6 : Body := ⟨BeaconType.identify, { payload0 with data := some [] }⟩

def world6 : World := { baseWorld with parseResult := Except.ok body6 }

/-- C6 counterexample: line 179 guards with `!data`, and in JS an empty
object is truthy.  An identity request whose data payload is the EMPTY
OBJECT is therefore not rejected: the request succeeds and an identity
record with the empty payload is persisted, contradicting the claim
that an empty object yields a client error and no stored record. -/
theorem claim6_counterexample :
    body6.payload.data = some [] ∧
    POST world6 =
      (Response.cacheToken ⟨"w1", "w1|h|9.9.9.9|UA", "w1|h|9.9.9.9|UA|salt", 1000⟩,
       [Effect.fetchWebsite ("w1"), Effect.getClientInfo, Effect.blockCheck ("9.9.9.9"),
        Effect.fetchSession ("w1") ("w1|h|9.9.9.9|UA"),
        Effect.saveSessionData ⟨"w1", "w1|h|9.9.9.9|UA", []⟩,
        Effect.createToken ⟨"w1", "w1|h|9.9.9.9|UA", "w1|h|9.9.9.9|UA|salt", 1000⟩]) := by
  decide

/-- C6 (amended): in the post-session stage every identity-type request
with an ABSENT data payload gets the bad-request response and adds no
stored record; every identity-type request with a PRESENT data payload
— even the empty object — persists exactly that payload as session
data keyed by the payload websiteId and the derived sessionId, and
issues the continuation token. -/
theorem claim6_identityData (w : World) (body : Body) (cache : Option Cache)
    (sessionId : String) (info : ClientInfo) (effs : List Effect)
    (hty : body.type = BeaconType.identify) :
    (body.payload.data = none →
      visitPhase w body cache sessionId info effs =
        (Response.badRequest ("Data required."), effs)) ∧
    (∀ d, body.payload.data = some d →
      visitPhase w body cache sessionId info effs =
        (Response.cacheToken (tokenOf w body cache sessionId),
         effs ++ [Effect.saveSessionData ⟨body.payload.website, sessionId, d⟩,
                  Effect.createToken (tokenOf w body cache sessionId)])) := by
  constructor
  · intro h
    unfold visitPhase
    rw [hty]
    simp [h]
  · intro d h
    unfold visitPhase
    rw [hty]
    simp [h, tokenOf]

theorem claim6_witness :
    visitPhase world6 body6 none ("w1|h|9.9.9.9|UA") cInfo0 [] =
      (Response.cacheToken (tokenOf world6 body6 none ("w1|h|9.9.9.9|UA")),
       [] ++ [Effect.saveSessionData ⟨body6.payload.website, ("w1|h|9.9.9.9|UA"), []⟩,
              Effect.createToken (tokenOf world6 body6 none ("w1|h|9.9.9.9|UA"))]) :=
  (claim6_identityData world6 body6 none ("w1|h|9.9.9.9|UA") cInfo0 [] rfl).2 [] rfl

theorem visitPhase_usesIds (w : World) (body : Body) (cache : Option Cache) (sid : String)
    (info : ClientInfo) (effs : List Effect)
    (h : effs.all (usesIds body.payload.website sid) = true) :
    ((visitPhase w body cache sid info effs).2.all (usesIds body.payload.website sid) = true) ∧
    (∀ t, (visitPhase w body cache sid info effs).1 = Response.cacheToken t →
      t.websiteId = body.payload.website ∧ t.sessionId = sid) := by
  obtain ⟨ty, pl⟩ := body
  unfold visitPhase
  cases ty with
  | event =>
    cases hn : normalizeUrl w.safeDecodeURI w.parseURL w.removeTrailingSlash pl.url pl.referrer with
    | error u => exact ⟨by simpa using h, by intro t ht; simp at ht⟩
    | ok n =>
      constructor
      · simp [List.all_append, usesIds]
        exact by simpa using h
      · intro t ht
        simp at ht
        rw [← ht]
        exact ⟨rfl, rfl⟩
  | identify =>
    cases hd : pl.data with
    | none => exact ⟨by simpa using h, by intro t ht; simp at ht⟩
    | some d =>
      constructor
      · simp [List.all_append, usesIds]
        exact by simpa using h
      · intro t ht
        simp at ht
        rw [← ht]
        exact ⟨rfl, rfl⟩

theorem sessionPhase_usesIds (w : World) (body : Body) (cache : Option Cache) (sid : String)
    (info : ClientInfo) (effs : List Effect)
    (h : effs.all (usesIds body.payload.website sid) = true) :
    ((sessionPhase w body cache sid info effs).2.all (usesIds body.payload.website sid) = true) ∧
    (∀ t, (sessionPhase w body cache sid info effs).1 = Response.cacheToken t →
      t.websiteId = body.payload.website ∧ t.sessionId = sid) := by
  unfold sessionPhase
  cases hcs : cacheSessionTruthy cache with
  | true => exact visitPhase_usesIds w body cache sid info effs h
  | false =>
    simp only [Bool.false_eq_true, if_false]
    have h2 : (effs ++ [Effect.fetchSession body.payload.website sid]).all
        (usesIds body.payload.website sid) = true := by
      simp [List.all_append, usesIds]
      exact by simpa using h
    cases hcond : (!(w.fetchSession body.payload.website sid)) && (!w.clickhouseEnabled) with
    | false =>
      simp only [Bool.false_eq_true, if_false]
      exact visitPhase_usesIds w body cache sid info _ h2
    | true =>
      simp only [if_true]
      have h3 : ((effs ++ [Effect.fetchSession body.payload.website sid]) ++
          [Effect.createSession (mkSessionRec w body sid)]).all
          (usesIds body.payload.website sid) = true := by
        simp [List.all_append, usesIds]
        exact by simpa using h
      cases hcr : w.createSession (mkSessionRec w body sid) with
      | ok u => exact visitPhase_usesIds w body cache sid info _ h3
      | error e =>
        cases hinc : jsIncludes (jsToLower e.message) ("unique constraint") with
        | false =>
          simp only [hinc, Bool.not_false, if_true]
          exact ⟨by simpa using h3, by intro t ht; simp at ht⟩
        | true =>
          simp only [hinc, Bool.not_true, Bool.false_eq_true, if_false]
          exact visitPhase_usesIds w body cache sid info _ h3

/-- C10: on every request (whatever the decoded cache contains), every
persisted event record, every persisted identity record and every
issued continuation token carries the websiteId taken from the request
payload and the sessionId freshly derived on this request
(`uuid(websiteId, hostname, ip, userAgent)`, line 89); ids carried
inside the cache token are never persisted or embedded in the new
token — the cache only decides whether the website and session lookups
are skipped. -/
theorem claim10_idsFromRequest (w : World) (body : Body)
    (hparse : w.parseResult = Except.ok body) :
    ((POST w).2.all (usesIds body.payload.website (sessionIdOf w body)) = true) ∧
    (∀ t, (POST w).1 = Response.cacheToken t →
      t.websiteId = body.payload.website ∧ t.sessionId = sessionIdOf w body) := by
  unfold POST
  rw [hparse]
  cases hbot : (!w.disableBotCheck) && w.isbot w.userAgentHeader with
  | true =>
    simp only [if_true]
    exact ⟨by simp, by intro t ht; simp at ht⟩
  | false =>
    simp only [Bool.false_eq_true, if_false]
    cases hweb : (!(cacheWebsiteTruthy (cacheFromWorld w))) && (!(w.fetchWebsite body.payload.website)) with
    | true =>
      simp only [if_true]
      refine ⟨?_, by intro t ht; simp at ht⟩
      cases hcw : cacheWebsiteTruthy (cacheFromWorld w) <;> simp [usesIds]
    | false =>
      simp only [Bool.false_eq_true, if_false]
      cases hip : w.hasBlockedIp w.clientInfo.ip with
      | true =>
        simp only [if_true]
        refine ⟨?_, by intro t ht; simp at ht⟩
        cases hcw : cacheWebsiteTruthy (cacheFromWorld w) <;> simp [usesIds]
      | false =>
        simp only [Bool.false_eq_true, if_false]
        apply sessionPhase_usesIds
        cases hcw : cacheWebsiteTruthy (cacheFromWorld w) <;> simp [usesIds]

def cache10 : Cache := ⟨"otherWebsite", "otherSession", "cachedVisit", 500⟩

def world10 : World :=
  { baseWorld with cacheHeader := some ("tok"), parseToken := fun _ => some cache10 }

theorem claim10_witness :
    ((POST world10).2.all (usesIds body0.payload.website (sessionIdOf world10 body0)) = true) ∧
    (∀ t, (POST world10).1 = Response.cacheToken t →
      t.websiteId = body0.payload.website ∧ t.sessionId = sessionIdOf world10 body0) :=
  claim10_idsFromRequest world10 body0 rfl
